import Mathlib

/-!
Verification of the version-catalog, DNS-readiness and MySQL-lifecycle logic of
the deployment engine.  The Rust sources are shallowly embedded: hash maps
become functions `String → Option String`, `format!` becomes string append over
a decimal integer printer, fallible calls return `Except`, a Rust panic is the
`none` of an `Option` result, and the effectful lifecycle methods are functions
from the outcomes of their external collaborators to a step trace plus result.
-/

/-! ## Decimal printing of integers (the semantics of `format!("{}", i)` on `i32`) -/

/-- The decimal digit character for `d < 10` (`'?'` out of range, never used). -/
def digitChar : Nat → Char
  | 0 => '0'
  | 1 => '1'
  | 2 => '2'
  | 3 => '3'
  | 4 => '4'
  | 5 => '5'
  | 6 => '6'
  | 7 => '7'
  | 8 => '8'
  | 9 => '9'
  | _ => '?'

/-- Numeric value of a digit character (left inverse of `digitChar` below 10). -/
def digitVal (c : Char) : Nat := c.toNat - 48

theorem digitVal_digitChar {d : Nat} (hd : d < 10) : digitVal (digitChar d) = d := by
  interval_cases d <;> rfl

theorem digitChar_ne_dot {d : Nat} (hd : d < 10) : digitChar d ≠ '.' := by
  interval_cases d <;> decide

theorem digitChar_ne_dash {d : Nat} (hd : d < 10) : digitChar d ≠ '-' := by
  interval_cases d <;> decide

/-- Little-endian decimal digits, fuel-driven so that it reduces definitionally. -/
def natDigitsRevAux : Nat → Nat → List Nat
  | 0, _ => []
  | fuel + 1, n => if n < 10 then [n] else n % 10 :: natDigitsRevAux fuel (n / 10)

/-- Little-endian decimal digits of a natural number. -/
def natDigitsRev (n : Nat) : List Nat := natDigitsRevAux (n + 1) n

theorem natDigitsRevAux_fuel_irrel :
    ∀ (f : Nat) (g n : Nat), n < f → n < g → natDigitsRevAux f n = natDigitsRevAux g n := by
  intro f
  induction f with
  | zero => intro g n hn; omega
  | succ f ih =>
    intro g n hnf hng
    match g with
    | 0 => omega
    | g + 1 =>
      show natDigitsRevAux (f + 1) n = natDigitsRevAux (g + 1) n
      by_cases h10 : n < 10
      · simp [natDigitsRevAux, h10]
      · have hdiv : n / 10 < n := Nat.div_lt_self (by omega) (by omega)
        simp only [natDigitsRevAux, if_neg h10]
        rw [ih g (n / 10) (by omega) (by omega)]

theorem natDigitsRev_eq (n : Nat) :
    natDigitsRev n = if n < 10 then [n] else n % 10 :: natDigitsRev (n / 10) := by
  show (if n < 10 then [n] else n % 10 :: natDigitsRevAux n (n / 10)) = _
  by_cases h10 : n < 10
  · simp [h10]
  · rw [if_neg h10, if_neg h10]
    congr 1
    exact natDigitsRevAux_fuel_irrel n (n / 10 + 1) (n / 10) (by omega) (by omega)

theorem natDigitsRev_lt10 (n : Nat) : ∀ d ∈ natDigitsRev n, d < 10 := by
  induction n using Nat.strong_induction_on with
  | _ n ih =>
    rw [natDigitsRev_eq]
    by_cases h10 : n < 10
    · simp [h10]
    · have hdiv : n / 10 < n := Nat.div_lt_self (by omega) (by omega)
      simp only [if_neg h10, List.mem_cons]
      rintro d (rfl | hd)
      · omega
      · exact ih (n / 10) hdiv d hd

theorem natDigitsRev_ne_nil (n : Nat) : natDigitsRev n ≠ [] := by
  rw [natDigitsRev_eq]
  by_cases h10 : n < 10 <;> simp [h10]

/-- Value of a little-endian digit list. -/
def fromDigitsRev : List Nat → Nat
  | [] => 0
  | d :: t => d + 10 * fromDigitsRev t

theorem fromDigitsRev_natDigitsRev (n : Nat) : fromDigitsRev (natDigitsRev n) = n := by
  induction n using Nat.strong_induction_on with
  | _ n ih =>
    rw [natDigitsRev_eq]
    by_cases h10 : n < 10
    · simp [h10, fromDigitsRev]
    · have hdiv : n / 10 < n := Nat.div_lt_self (by omega) (by omega)
      simp only [if_neg h10, fromDigitsRev]
      rw [ih (n / 10) hdiv]
      omega

theorem natDigitsRev_injective {a b : Nat} (h : natDigitsRev a = natDigitsRev b) : a = b := by
  have := fromDigitsRev_natDigitsRev a
  rw [h, fromDigitsRev_natDigitsRev] at this
  omega

/-- Decimal representation of a natural number, as the character list of `format!`. -/
def natReprChars (n : Nat) : List Char := (natDigitsRev n).reverse.map digitChar

theorem natReprChars_ne_nil (n : Nat) : natReprChars n ≠ [] := by
  simp [natReprChars, natDigitsRev_ne_nil]

theorem mem_natReprChars_is_digit {n : Nat} {c : Char} (hc : c ∈ natReprChars n) :
    ∃ d, d < 10 ∧ c = digitChar d := by
  simp only [natReprChars, List.mem_map, List.mem_reverse] at hc
  obtain ⟨d, hd, rfl⟩ := hc
  exact ⟨d, natDigitsRev_lt10 n d hd, rfl⟩

theorem natReprChars_no_dot {n : Nat} : '.' ∉ natReprChars n := by
  intro hmem
  obtain ⟨d, hd, hc⟩ := mem_natReprChars_is_digit hmem
  exact digitChar_ne_dot hd hc.symm

theorem natReprChars_no_dash {n : Nat} : '-' ∉ natReprChars n := by
  intro hmem
  obtain ⟨d, hd, hc⟩ := mem_natReprChars_is_digit hmem
  exact digitChar_ne_dash hd hc.symm

theorem map_digitChar_inj : ∀ (l1 l2 : List Nat), (∀ d ∈ l1, d < 10) → (∀ d ∈ l2, d < 10) →
    l1.map digitChar = l2.map digitChar → l1 = l2 := by
  intro l1
  induction l1 with
  | nil => intro l2 _ _ h; cases l2 <;> simp_all
  | cons a t ih =>
    intro l2 h1 h2 h
    cases l2 with
    | nil => simp_all
    | cons b t2 =>
      simp only [List.map_cons, List.cons.injEq] at h
      have ha : a < 10 := h1 a (by simp)
      have hb : b < 10 := h2 b (by simp)
      have hab : a = b := by
        have := congrArg digitVal h.1
        rwa [digitVal_digitChar ha, digitVal_digitChar hb] at this
      have := ih t2 (fun d hd => h1 d (by simp [hd])) (fun d hd => h2 d (by simp [hd])) h.2
      simp [hab, this]

theorem natReprChars_injective {a b : Nat} (h : natReprChars a = natReprChars b) : a = b := by
  apply natDigitsRev_injective
  have := map_digitChar_inj (natDigitsRev a).reverse (natDigitsRev b).reverse
    (fun d hd => natDigitsRev_lt10 a d (List.mem_reverse.mp hd))
    (fun d hd => natDigitsRev_lt10 b d (List.mem_reverse.mp hd)) h
  exact List.reverse_injective this

/-! ## Strings: integer display, the `"M.m"` / `"M.m.u"` key formats, injectivity -/

/-- Decimal display of an integer, the semantics of `format!("{}", i)` for `i32`
(the claims never exercise `i32` overflow, so `Int` stands for `i32`). -/
def intRepr : Int → String
  | Int.ofNat n => ⟨natReprChars n⟩
  | Int.negSucc n => ⟨'-' :: natReprChars (n + 1)⟩

theorem string_data_append (s t : String) : (s ++ t).data = s.data ++ t.data := by
  cases s; cases t; rfl

theorem string_data_inj {s t : String} (h : s.data = t.data) : s = t := by
  cases s; cases t; exact congrArg String.mk h

theorem intRepr_no_dot (i : Int) : '.' ∉ (intRepr i).data := by
  cases i with
  | ofNat n => exact natReprChars_no_dot
  | negSucc n =>
    intro h
    rcases List.mem_cons.mp h with h | h
    · exact absurd h.symm (by decide)
    · exact natReprChars_no_dot h

theorem intRepr_injective {a b : Int} (h : intRepr a = intRepr b) : a = b := by
  have hd : (intRepr a).data = (intRepr b).data := by rw [h]
  cases a with
  | ofNat n =>
    cases b with
    | ofNat m =>
      simp only [intRepr] at hd
      rw [natReprChars_injective hd]
    | negSucc m =>
      exfalso
      simp only [intRepr] at hd
      have : '-' ∈ natReprChars n := by rw [hd]; simp
      exact natReprChars_no_dash this
  | negSucc n =>
    cases b with
    | ofNat m =>
      exfalso
      simp only [intRepr] at hd
      have : '-' ∈ natReprChars m := by rw [← hd]; simp
      exact natReprChars_no_dash this
    | negSucc m =>
      simp only [intRepr, List.cons.injEq, true_and] at hd
      have := natReprChars_injective hd
      exact congrArg Int.negSucc (by omega)

/-- The `"major.minor"` key format of the catalogs. -/
def ver2 (M a : Int) : String := intRepr M ++ "." ++ intRepr a

/-- The `"major.minor.update"` key format of the catalogs. -/
def ver3 (M a b : Int) : String := intRepr M ++ "." ++ intRepr a ++ "." ++ intRepr b

theorem dot_string_data : ("." : String).data = ['.'] := rfl

theorem ver2_data (M a : Int) :
    (ver2 M a).data = (intRepr M).data ++ '.' :: (intRepr a).data := by
  show (intRepr M ++ "." ++ intRepr a).data = _
  rw [string_data_append, string_data_append, dot_string_data]
  simp [List.append_assoc]

theorem ver3_data (M a b : Int) :
    (ver3 M a b).data = (intRepr M).data ++ '.' :: ((intRepr a).data ++ '.' :: (intRepr b).data) := by
  show (intRepr M ++ "." ++ intRepr a ++ "." ++ intRepr b).data = _
  rw [string_data_append, string_data_append, string_data_append, string_data_append,
    dot_string_data]
  simp [List.append_assoc]

theorem count_dot_intRepr (i : Int) : (intRepr i).data.count '.' = 0 :=
  List.count_eq_zero.mpr (intRepr_no_dot i)

theorem count_dot_ver2 (M a : Int) : (ver2 M a).data.count '.' = 1 := by
  rw [ver2_data, List.count_append, List.count_cons]
  simp [count_dot_intRepr]

theorem count_dot_ver3 (M a b : Int) : (ver3 M a b).data.count '.' = 2 := by
  rw [ver3_data, List.count_append, List.count_cons, List.count_append, List.count_cons]
  simp [count_dot_intRepr]

theorem ver2_ne_ver3 (M a M2 a2 b2 : Int) : ver2 M a ≠ ver3 M2 a2 b2 := by
  intro h
  have h2 : (ver2 M a).data.count '.' = (ver3 M2 a2 b2).data.count '.' := by rw [h]
  rw [count_dot_ver2, count_dot_ver3] at h2
  omega

theorem intRepr_ne_ver2 (i M a : Int) : intRepr i ≠ ver2 M a := by
  intro h
  have h2 : (intRepr i).data.count '.' = (ver2 M a).data.count '.' := by rw [h]
  rw [count_dot_intRepr, count_dot_ver2] at h2
  omega

theorem intRepr_ne_ver3 (i M a b : Int) : intRepr i ≠ ver3 M a b := by
  intro h
  have h2 : (intRepr i).data.count '.' = (ver3 M a b).data.count '.' := by rw [h]
  rw [count_dot_intRepr, count_dot_ver3] at h2
  omega

theorem split_at_first_dot :
    ∀ (l1 l2 r1 r2 : List Char), '.' ∉ l1 → '.' ∉ l2 →
      l1 ++ '.' :: r1 = l2 ++ '.' :: r2 → l1 = l2 ∧ r1 = r2 := by
  intro l1
  induction l1 with
  | nil =>
    intro l2 r1 r2 _ h2 h
    cases l2 with
    | nil => simpa using h
    | cons c t =>
      exfalso
      simp only [List.nil_append, List.cons_append, List.cons.injEq] at h
      exact h2 (List.mem_cons.mpr (Or.inl h.1))
  | cons c t ih =>
    intro l2 r1 r2 h1 h2 h
    cases l2 with
    | nil =>
      exfalso
      simp only [List.nil_append, List.cons_append, List.cons.injEq] at h
      exact h1 (List.mem_cons.mpr (Or.inl h.1.symm))
    | cons c2 t2 =>
      simp only [List.cons_append, List.cons.injEq] at h
      have := ih t2 r1 r2 (fun hm => h1 (by simp [hm])) (fun hm => h2 (by simp [hm])) h.2
      exact ⟨by simp [h.1, this.1], this.2⟩

theorem ver2_inj {M a a2 : Int} (h : ver2 M a = ver2 M a2) : a = a2 := by
  have hd : (ver2 M a).data = (ver2 M a2).data := by rw [h]
  rw [ver2_data, ver2_data] at hd
  have := List.append_cancel_left hd
  simp only [List.cons.injEq, true_and] at this
  exact intRepr_injective (string_data_inj this)

theorem ver3_inj {M a b a2 b2 : Int} (h : ver3 M a b = ver3 M a2 b2) : a = a2 ∧ b = b2 := by
  have hd : (ver3 M a b).data = (ver3 M a2 b2).data := by rw [h]
  rw [ver3_data, ver3_data] at hd
  have h1 := List.append_cancel_left hd
  simp only [List.cons.injEq, true_and] at h1
  have h2 := split_at_first_dot _ _ _ _ (intRepr_no_dot a) (intRepr_no_dot a2) h1
  exact ⟨intRepr_injective (string_data_inj h2.1), intRepr_injective (string_data_inj h2.2)⟩

/-! ## `HashMap<String, String>` model and generic fold-lookup lemmas -/

/-- Model of `HashMap<String, String>`, extensionally by its lookup function. -/
def VersionMap := String → Option String

/-- The empty map (`HashMap::new`). -/
def emptyMap : VersionMap := fun _ => none

/-- Rust `map.insert(k, v)` (overwrites). -/
def insertKV (m : VersionMap) (k v : String) : VersionMap :=
  fun x => if x = k then some v else m x

/-- Rust `m1.extend(m2)`: entries of `m2` override entries of `m1` (last write wins). -/
def extendMap (m1 m2 : VersionMap) : VersionMap :=
  fun x => match m2 x with
    | some v => some v
    | none => m1 x

/-- Rust `map.remove(k)`. -/
def removeKey (m : VersionMap) (k : String) : VersionMap :=
  fun x => if x = k then none else m x

theorem insertKV_self (m : VersionMap) (k v : String) : insertKV m k v k = some v := by
  simp [insertKV]

theorem insertKV_other (m : VersionMap) {k x : String} (v : String) (h : x ≠ k) :
    insertKV m k v x = m x := by
  simp [insertKV, h]

theorem foldl_lookup_preserve {α : Type} (step : VersionMap → α → VersionMap) (x : String) :
    ∀ (L : List α) (m : VersionMap), (∀ acc e, e ∈ L → step acc e x = acc x) →
      L.foldl step m x = m x := by
  intro L
  induction L with
  | nil => intro m _; rfl
  | cons e L ih =>
    intro m h
    show L.foldl step (step m e) x = m x
    rw [ih (step m e) (fun acc e2 he2 => h acc e2 (by simp [he2]))]
    exact h m e (by simp)

theorem foldl_lookup_stable {α : Type} (step : VersionMap → α → VersionMap) (x v : String) :
    ∀ (L : List α) (m : VersionMap),
      (∀ acc e, e ∈ L → step acc e x = some v ∨ step acc e x = acc x) →
      m x = some v → L.foldl step m x = some v := by
  intro L
  induction L with
  | nil => intro m _ hm; exact hm
  | cons e L ih =>
    intro m h hm
    show L.foldl step (step m e) x = some v
    refine ih (step m e) (fun acc e2 he2 => h acc e2 (by simp [he2])) ?_
    rcases h m e (by simp) with h1 | h1
    · exact h1
    · rw [h1]; exact hm

theorem foldl_lookup_of_mem {α : Type} (step : VersionMap → α → VersionMap) (x v : String) :
    ∀ (L : List α) (m : VersionMap),
      (∀ acc e, e ∈ L → step acc e x = some v ∨ step acc e x = acc x) →
      (∃ e0 ∈ L, ∀ acc, step acc e0 x = some v) →
      L.foldl step m x = some v := by
  intro L
  induction L with
  | nil => intro m _ hex; simp at hex
  | cons e L ih =>
    intro m h hex
    show L.foldl step (step m e) x = some v
    rcases hex with ⟨e0, he0, hset⟩
    rcases List.mem_cons.mp he0 with heq | he0L
    · subst heq
      exact foldl_lookup_stable step x v L (step m e0)
        (fun acc e2 he2 => h acc e2 (by simp [he2])) (hset m)
    · exact ih (step m e) (fun acc e2 he2 => h acc e2 (by simp [he2])) ⟨e0, he0L, hset⟩

/-- Rust `lo..hi + 1` (the inclusive integer range, empty when `hi < lo`). -/
def rangeInclusive (lo hi : Int) : List Int :=
  (List.range (hi + 1 - lo).toNat).map (fun k : Nat => lo + (k : Int))

theorem mem_rangeInclusive {lo hi x : Int} :
    x ∈ rangeInclusive lo hi ↔ lo ≤ x ∧ x ≤ hi := by
  constructor
  · intro h
    obtain ⟨k, hk, hx⟩ := List.mem_map.mp h
    rw [List.mem_range] at hk
    subst hx
    omega
  · intro h
    refine List.mem_map.mpr ⟨(x - lo).toNat, ?_, ?_⟩
    · rw [List.mem_range]; omega
    · omega

/-! ## `VersionsNumber` and `get_version_number` (src/cloud_provider/utilities.rs) -/

/-- The split of a version request at three granularities
(fields are raw strings: the source is deliberately not SemVer). -/
structure VersionsNumber where
  major : String
  minor : Option String
  patch : Option String

/-- Rust `str::split('.')`, expressed over the character list
(same semantics: `""` yields `[""]`, separators split eagerly). -/
def splitOnDotChars : List Char → List (List Char)
  | [] => [[]]
  | c :: rest =>
    let r := splitOnDotChars rest
    if c = '.' then [] :: r
    else match r with
      | [] => [[c]]
      | h :: t => (c :: h) :: t

/-- Rust `version.split(".")` with at most the three leading components consumed. -/
def rustSplitDot (s : String) : List String :=
  (splitOnDotChars s.data).map (fun l => ⟨l⟩)

theorem splitOnDotChars_ne_nil (l : List Char) : splitOnDotChars l ≠ [] := by
  induction l with
  | nil => simp [splitOnDotChars]
  | cons c rest ih =>
    simp only [splitOnDotChars]
    by_cases hc : c = '.'
    · simp [hc]
    · simp only [if_neg hc]
      cases splitOnDotChars rest <;> simp

/-- Model of `get_version_number`: first split component is the major, second the minor,
third the patch; later components are discarded.  The error branch is
unreachable (`split` always yields at least one component) but kept faithful. -/
def get_version_number (version : String) : Except String VersionsNumber :=
  match rustSplitDot version with
  | [] => .error "please check the version you\x27ve sent, it can\x27t be checked"
  | major :: rest =>
    .ok { major := major,
          minor := rest.head?,
          patch := (rest.drop 1).head? }

/-! ## `get_supported_version_to_use` (src/cloud_provider/utilities.rs:85) -/

/-- Model of `get_supported_version_to_use`: resolve `version_to_check` against the
catalog at exactly the granularity of the request.  The `minor.unwrap()` of the
patch branch is modelled with `getD ""`; it is justified by
`patch_some_implies_minor_some` below (the parser never produces a patch
without a minor). -/
def get_supported_version_to_use (database_name : String)
    (all_supported_versions : VersionMap) (version_to_check : String) :
    Except String String :=
  match get_version_number version_to_check with
  | .error e => .error e
  | .ok version =>
    match version.patch with
    | some patch =>
      match all_supported_versions
          (version.major ++ "." ++ version.minor.getD "" ++ "." ++ patch) with
      | some v => .ok v
      | none => .error (database_name ++ " " ++ version_to_check ++ " version is not supported")
    | none =>
      match version.minor with
      | some minor =>
        match all_supported_versions (version.major ++ "." ++ minor) with
        | some v => .ok v
        | none => .error (database_name ++ " " ++ version_to_check ++ " version is not supported")
      | none =>
        match all_supported_versions version.major with
        | some v => .ok v
        | none => .error (database_name ++ " " ++ version_to_check ++ " version is not supported")

theorem patch_some_implies_minor_some {v : String} {p : VersionsNumber}
    (h : get_version_number v = .ok p) (hp : p.patch.isSome) : p.minor.isSome := by
  unfold get_version_number at h
  rcases hsplit : rustSplitDot v with _ | ⟨major, rest⟩
  · simp [hsplit] at h
  · rw [hsplit] at h
    simp only [Except.ok.injEq] at h
    subst h
    cases rest with
    | nil => simp at hp
    | cons a t => simp

/-- Modelled from the spec (§4.1): the single lookup key dictated by the
granularity of the request — patch key if a patch is present, else minor key if
a minor is present, else the bare major. -/
def chosen_lookup_key (version_to_check : String) : String :=
  match get_version_number version_to_check with
  | .error _ => ""
  | .ok version =>
    match version.patch with
    | some patch => version.major ++ "." ++ version.minor.getD "" ++ "." ++ patch
    | none =>
      match version.minor with
      | some minor => version.major ++ "." ++ minor
      | none => version.major

/-- The unsupported-version message produced by `get_supported_version_to_use`. -/
def unsupportedMsg (database_name version_to_check : String) : String :=
  database_name ++ " " ++ version_to_check ++ " version is not supported"

theorem get_version_number_ok (v : String) : ∃ p, get_version_number v = .ok p := by
  unfold get_version_number
  rcases hsplit : rustSplitDot v with _ | ⟨major, rest⟩
  · exfalso
    have := splitOnDotChars_ne_nil v.data
    simp only [rustSplitDot] at hsplit
    exact this (List.map_eq_nil_iff.mp hsplit)
  · exact ⟨_, rfl⟩

/-- Shared characterisation: resolution consults the catalog at exactly
`chosen_lookup_key` and either returns the hit or the unsupported message. -/
theorem resolve_eq_lookup (database_name : String) (m : VersionMap) (v : String) :
    get_supported_version_to_use database_name m v =
      match m (chosen_lookup_key v) with
      | some r => .ok r
      | none => .error (unsupportedMsg database_name v) := by
  obtain ⟨p, hp⟩ := get_version_number_ok v
  unfold get_supported_version_to_use chosen_lookup_key unsupportedMsg
  rw [hp]
  rcases p with ⟨major, minor, patch⟩
  cases patch <;> cases minor <;> rfl

/-! ## `generate_supported_version` (src/cloud_provider/utilities.rs:141) -/

/-- The update-key inserts for one minor line: `if update_min == update_max`
insert the single key, else loop `update_min..update_max + 1`
(faithful to the source's redundant special case). -/
def insertUpdateKeys (major mi umin umax : Int) (suffix : String) (acc : VersionMap) :
    VersionMap :=
  if umin = umax then
    insertKV acc (ver3 major mi umin) (ver3 major mi umin ++ suffix)
  else
    (rangeInclusive umin umax).foldl
      (fun acc2 u => insertKV acc2 (ver3 major mi u) (ver3 major mi u ++ suffix)) acc

/-- The source's suffix defaulting (`Some(s) => s, None => empty`). -/
def suffix_or_empty : Option String → String
  | some s => s
  | none => ""

/-- Model of `generate_supported_version`: expand a version range into the lookup
catalog.  `none` models the `update_max.unwrap()` panic reached whenever
`update_min` is `Some` but `update_max` is `None`. -/
def generate_supported_version (major minor_min minor_max : Int)
    (update_min update_max : Option Int) (suffix_version : Option String) :
    Option VersionMap :=
  let suffix := suffix_or_empty suffix_version
  match update_min with
  | some umin =>
    match update_max with
    | none => none
    | some umax =>
      let latest_major_version := ver3 major minor_max umax ++ suffix
      let m1 : VersionMap :=
        if minor_min = minor_max then
          insertUpdateKeys major minor_min umin umax suffix
            (insertKV emptyMap (ver2 major minor_max) latest_major_version)
        else
          (rangeInclusive minor_min minor_max).foldl
            (fun acc mi =>
              insertUpdateKeys major mi umin umax suffix
                (insertKV acc (ver2 major mi) (ver3 major mi umax)))
            emptyMap
      some (insertKV m1 (intRepr major) latest_major_version)
  | none =>
    let latest_major_version := ver2 major minor_max ++ suffix
    let m1 : VersionMap :=
      (rangeInclusive minor_min minor_max).foldl
        (fun acc mi => insertKV acc (ver2 major mi) (ver2 major mi ++ suffix))
        emptyMap
    some (insertKV m1 (intRepr major) latest_major_version)

/-! ## Lookup lemmas for the generated catalog -/

theorem insertUpdateKeys_preserve {major mi umin umax : Int} {suffix : String}
    {acc : VersionMap} {x : String}
    (hx : ∀ u, umin ≤ u → u ≤ umax → x ≠ ver3 major mi u) :
    insertUpdateKeys major mi umin umax suffix acc x = acc x := by
  unfold insertUpdateKeys
  by_cases he : umin = umax
  · rw [if_pos he]
    exact insertKV_other acc _ (hx umin (le_refl _) (le_of_eq he))
  · rw [if_neg he]
    refine foldl_lookup_preserve _ x _ acc ?_
    intro acc2 u hu
    have := mem_rangeInclusive.mp hu
    exact insertKV_other acc2 _ (hx u this.1 this.2)

theorem insertUpdateKeys_hit {major mi umin umax u0 : Int} {suffix : String}
    (acc : VersionMap) (h1 : umin ≤ u0) (h2 : u0 ≤ umax) :
    insertUpdateKeys major mi umin umax suffix acc (ver3 major mi u0) =
      some (ver3 major mi u0 ++ suffix) := by
  unfold insertUpdateKeys
  by_cases he : umin = umax
  · rw [if_pos he]
    have hu0 : u0 = umin := by omega
    subst hu0
    exact insertKV_self _ _ _
  · rw [if_neg he]
    refine foldl_lookup_of_mem _ _ _ _ acc ?_ ?_
    · intro acc2 u hu
      by_cases hxu : ver3 major mi u0 = ver3 major mi u
      · left
        rw [hxu]
        exact insertKV_self _ _ _
      · right
        exact insertKV_other acc2 _ hxu
    · refine ⟨u0, mem_rangeInclusive.mpr ⟨h1, h2⟩, ?_⟩
      intro acc2
      exact insertKV_self _ _ _

theorem gen_lookup_ver3 {major mMin mMax umin umax : Int} (sufOpt : Option String)
    {mi0 u0 : Int} (h1 : mMin ≤ mi0) (h2 : mi0 ≤ mMax) (h3 : umin ≤ u0) (h4 : u0 ≤ umax)
    {f : VersionMap}
    (hf : generate_supported_version major mMin mMax (some umin) (some umax) sufOpt = some f) :
    f (ver3 major mi0 u0) = some (ver3 major mi0 u0 ++ suffix_or_empty sufOpt) := by
  unfold generate_supported_version at hf
  simp only [Option.some.injEq] at hf
  subst hf
  rw [insertKV_other _ _ (intRepr_ne_ver3 major major mi0 u0).symm]
  by_cases he : mMin = mMax
  · rw [if_pos he]
    have hmi : mi0 = mMin := by omega
    subst hmi
    rw [insertUpdateKeys_hit _ h3 h4]
  · rw [if_neg he]
    refine foldl_lookup_of_mem _ _ _ _ emptyMap ?_ ?_
    · intro acc mi hmi
      by_cases hmi0 : mi = mi0
      · subst hmi0
        left
        exact insertUpdateKeys_hit _ h3 h4
      · right
        rw [insertUpdateKeys_preserve ?_]
        · exact insertKV_other acc _ (ver2_ne_ver3 major mi major mi0 u0).symm
        · intro u _ _ hx
          exact hmi0 (ver3_inj hx).1.symm
    · refine ⟨mi0, mem_rangeInclusive.mpr ⟨h1, h2⟩, ?_⟩
      intro acc
      exact insertUpdateKeys_hit _ h3 h4

theorem gen_lookup_ver2 {major mMin mMax umin umax : Int} (sufOpt : Option String)
    {mi0 : Int} (h1 : mMin ≤ mi0) (h2 : mi0 ≤ mMax) {f : VersionMap}
    (hf : generate_supported_version major mMin mMax (some umin) (some umax) sufOpt = some f) :
    f (ver2 major mi0) =
      some (if mMin = mMax then ver3 major mMax umax ++ suffix_or_empty sufOpt
            else ver3 major mi0 umax) := by
  unfold generate_supported_version at hf
  simp only [Option.some.injEq] at hf
  subst hf
  rw [insertKV_other _ _ (intRepr_ne_ver2 major major mi0).symm]
  by_cases he : mMin = mMax
  · rw [if_pos he, if_pos he]
    have hmi : mi0 = mMax := by omega
    subst hmi
    rw [insertUpdateKeys_preserve (fun u _ _ hx => ver2_ne_ver3 major mi0 major mMin u hx)]
    exact insertKV_self _ _ _
  · rw [if_neg he, if_neg he]
    refine foldl_lookup_of_mem _ _ _ _ emptyMap ?_ ?_
    · intro acc mi hmi
      by_cases hmi0 : mi = mi0
      · subst hmi0
        left
        rw [insertUpdateKeys_preserve (fun u _ _ hx => ver2_ne_ver3 major mi major mi u hx)]
        exact insertKV_self _ _ _
      · right
        rw [insertUpdateKeys_preserve (fun u _ _ hx => ver2_ne_ver3 major mi0 major mi u hx)]
        exact insertKV_other acc _ (fun hx => hmi0 (ver2_inj hx).symm)
    · refine ⟨mi0, mem_rangeInclusive.mpr ⟨h1, h2⟩, ?_⟩
      intro acc
      rw [insertUpdateKeys_preserve (fun u _ _ hx => ver2_ne_ver3 major mi0 major mi0 u hx)]
      exact insertKV_self _ _ _

theorem gen_lookup_major {major mMin mMax umin umax : Int} (sufOpt : Option String)
    {f : VersionMap}
    (hf : generate_supported_version major mMin mMax (some umin) (some umax) sufOpt = some f) :
    f (intRepr major) = some (ver3 major mMax umax ++ suffix_or_empty sufOpt) := by
  unfold generate_supported_version at hf
  simp only [Option.some.injEq] at hf
  subst hf
  exact insertKV_self _ _ _

/-! ## `get_self_hosted_mysql_version` (src/cloud_provider/utilities.rs:34) -/

/-- Model of `get_self_hosted_mysql_version`: merge the 5.7 range and the 8.0
range (later `extend` wins on key collisions) and resolve through
`get_supported_version_to_use` under the display name `"MySQL"`.  An outer
`none` would propagate a generator panic (never reached at these arguments). -/
def get_self_hosted_mysql_version (requested_version : String) :
    Option (Except String String) :=
  match generate_supported_version 5 7 7 (some 16) (some 31) none with
  | none => none
  | some v57 =>
    match generate_supported_version 8 0 0 (some 11) (some 21) none with
    | none => none
    | some v8 =>
      some (get_supported_version_to_use "MySQL"
        (extendMap (extendMap emptyMap v57) v8) requested_version)

/-! ## Error taxonomy and progress events

The `error.rs` and `models.rs` modules are outside the given sources; the
structures below are modelled from the spec (§3 ProgressEvent / EngineError,
§7 taxonomy) and from the constructor calls visible in
src/cloud_provider/utilities.rs and src/container_registry/mod.rs. -/

/-- Modelled from the spec: the `EngineErrorCause` taxonomy of §7. -/
inductive EngineErrorCause
  | internal
  | user
  | canceled
deriving DecidableEq

/-- Modelled from the spec: the scope names the subsystem or entity (§3);
`engine` and a database entity are the variants these sources construct. -/
inductive EngineErrorScope
  | engine
  | database (id name : String)
deriving DecidableEq

/-- Modelled from the spec: every surfaced error carries cause, scope,
execution id and a human-readable message (§3, §7). -/
structure EngineError where
  cause : EngineErrorCause
  scope : EngineErrorScope
  execution_id : String
  message : Option String
deriving DecidableEq

/-- Modelled from the spec: an external collaborator's error, carrying an
optional message, as consumed by `cast_simple_error_to_engine_error`. -/
structure SimpleError where
  message : Option String
deriving DecidableEq

/-- Modelled from the spec: wrap a collaborator failure into the uniform
`EngineError` taxonomy at the caller's scope and execution id (§7). -/
def cast_simple_error_to_engine_error {α : Type} (scope : EngineErrorScope)
    (execution_id : String) : Except SimpleError α → Except EngineError α
  | .ok a => .ok a
  | .error e => .error ⟨.internal, scope, execution_id, e.message⟩

/-- Modelled from the spec: severity of a progress event (§3). -/
inductive ProgressLevel
  | info
  | warn
  | error
deriving DecidableEq

/-- Modelled from the spec: scope of a progress event (§3). -/
inductive ProgressScope
  | environment (id : String)
  | router (id : String)
deriving DecidableEq

/-- Modelled from the spec: a progress event (§3). -/
structure ProgressInfo where
  scope : ProgressScope
  level : ProgressLevel
  message : Option String
  execution_id : String
deriving DecidableEq

/-- One call on the `ListenersHelper` (which listener method carried the event). -/
inductive ListenerCall
  | start_in_progress (p : ProgressInfo)
  | started (p : ProgressInfo)
  | error (p : ProgressInfo)
deriving DecidableEq

/-! ## `check_domain_for` (src/cloud_provider/utilities.rs:255) -/

/-- Model of the retry crate combinator used by `check_domain_for`: run the
operation (attempts numbered from 1); on failure consume one delay from the
iterator, sleep it and retry; give up when the iterator is exhausted.  Returns
(tries, slept delays, success).  `n` delays therefore allow `n + 1` attempts. -/
def retryRun (op : Nat → Bool) (tryIdx : Nat) : List Nat → Nat × List Nat × Bool
  | [] => (tryIdx, [], op tryIdx)
  | d :: rest =>
    if op tryIdx then (tryIdx, [], true)
    else
      let r := retryRun op (tryIdx + 1) rest
      (r.1, d :: r.2.1, r.2.2)

/-- Rust `Fixed::from_millis(3000).take(100)`: one hundred 3000 ms delays. -/
def dns_fixed_delays : List Nat := List.replicate 100 3000

/-- Message of the per-domain kick-off event (also reused, with the joined
domain list, by the resolver-construction error). -/
def dns_check_msg (domain : String) : String :=
  "Let\x27s check domain resolution for \x27" ++ domain ++
    "\x27. Please wait, it can take some time..."

/-- Message of the per-failed-attempt progress event. -/
def dns_progress_msg (domain : String) : String :=
  "Domain resolution check for \x27" ++ domain ++ "\x27 is still in progress..."

/-- Message of the success event. -/
def dns_ready_msg (domain : String) : String :=
  "Domain " ++ domain ++ " is ready! ⚡️"

/-- Message of the retry-exhaustion warning event. -/
def dns_timeout_msg (domain : String) : String :=
  "Unable to check domain availability for \x27" ++ domain ++
    "\x27. It can be due to a too long domain propagation. Note: this is not critical."

/-- Rust `itertools::join(",")`. -/
def joinComma : List String → String
  | [] => ""
  | [s] => s
  | s :: rest => s ++ "," ++ joinComma rest

/-- Outcomes of the DNS collaborators: whether `Resolver::new` succeeds, and
whether `resolver.lookup_ip(domain)` succeeds at a given attempt number. -/
structure DnsWorld where
  resolver_ok : Bool
  lookup : String → Nat → Bool

/-- The body of `check_domain_for`'s per-domain loop iteration: kick-off event,
the bounded retry loop (an `Info` event per failed attempt), then either the
started event or the `Warn` error event.  Also returns (tries, slept, success). -/
def checkOneDomain (w : DnsWorld) (domain execution_id context_id : String) :
    List ListenerCall × (Nat × List Nat × Bool) :=
  let r := retryRun (w.lookup domain) 1 dns_fixed_delays
  let failed := if r.2.2 then r.1 - 1 else r.1
  let head_event := ListenerCall.start_in_progress
    ⟨.environment execution_id, .info, some (dns_check_msg domain), execution_id⟩
  let retry_events := List.replicate failed (ListenerCall.start_in_progress
    ⟨.environment execution_id, .info, some (dns_progress_msg domain), execution_id⟩)
  let final_event :=
    if r.2.2 then
      ListenerCall.started ⟨.router domain, .info, some (dns_ready_msg domain), context_id⟩
    else
      ListenerCall.error ⟨.environment execution_id, .warn, some (dns_timeout_msg domain), context_id⟩
  (head_event :: retry_events ++ [final_event], r)

/-- Model of `check_domain_for`: construct the resolver (an `Internal` error
aborts the whole check before any domain is polled), then poll every domain in
turn; the function returns `Ok(())` whatever the per-domain outcomes.  The
unused `name_with_id` parameter is kept from the source.  Alongside the emitted
events the model returns the (tries, slept delays, success) triple of each
domain's retry loop. -/
def check_domain_for (w : DnsWorld) (_name_with_id : String)
    (domains_to_check : List String) (execution_id context_id : String) :
    List ListenerCall × List (Nat × List Nat × Bool) × Except EngineError Unit :=
  if w.resolver_ok then
    let blocks := domains_to_check.map
      (fun d => checkOneDomain w d execution_id context_id)
    ((blocks.map Prod.fst).flatten, blocks.map Prod.snd, .ok ())
  else
    ([], [], .error ⟨.internal, .engine, execution_id,
      some (dns_check_msg (joinComma domains_to_check))⟩)

/-! ## MySQL lifecycle (src/cloud_provider/aws/databases/mysql.rs)

The effectful `on_create`/`delete` bodies are embedded as functions from the
outcomes of their external collaborators (rendering, terraform, kubectl, helm)
to the ordered trace of external steps performed plus the action's result.
`tera_context` only assembles the render context (its own kube-config /
namespace side effects touch none of the steps the claims speak about), so the
context value itself is not modelled. -/

/-- Cluster reference fields consumed by the MySQL paths. -/
structure KubernetesCluster where
  id : String
  name : String
  region : String
deriving DecidableEq

/-- Environment reference fields consumed by the MySQL paths
(`env_namespace` stands for the Rust `environment.namespace()`). -/
structure Environment where
  env_namespace : String
  organization_id : String
deriving DecidableEq

/-- Rust `DeploymentTarget`: managed cloud service or self-hosted workload. -/
inductive DeploymentTarget
  | managedServices (kubernetes : KubernetesCluster) (environment : Environment)
  | selfHosted (kubernetes : KubernetesCluster) (environment : Environment)
deriving DecidableEq

/-- Helm history entry: the deployment-status observer used by `on_create`. -/
structure HelmHistoryRow where
  is_successfully_deployed : Bool
deriving DecidableEq

/-- The MySQL service fields these paths consume (`lib_root_dir`,
`workspace_dir` and `execution_id` come from the service's `Context`). -/
structure MySQL where
  id : String
  name : String
  lib_root_dir : String
  workspace_dir : String
  execution_id : String
  is_dry_run_deploy : Bool
  resource_expiration_in_seconds : Option Int
deriving DecidableEq

/-- Modelled from the spec: `crate::string::cut` truncates after concatenation
(release names are `"<prefix>-<id>"` cut to 50 characters, §4.3). -/
def cut (s : String) (n : Nat) : String := ⟨s.data.take n⟩

/-- Rust `MySQL::helm_release_name`. -/
def helm_release_name (s : MySQL) : String := cut ("mysql-" ++ s.id) 50

/-- The error scope of this service (same construction as the
`engine_error_scope` default of src/container_registry/mod.rs). -/
def MySQL.engine_error_scope (s : MySQL) : EngineErrorScope :=
  .database s.id s.name

/-- Rust `self.engine_error(cause, message)` (same construction as the
`engine_error` default of src/container_registry/mod.rs). -/
def MySQL.engine_error (s : MySQL) (cause : EngineErrorCause) (message : String) :
    EngineError :=
  ⟨cause, s.engine_error_scope, s.execution_id, some message⟩

/-- One external step performed by a lifecycle action, in trace order. -/
inductive DbStep
  | render (fromDir toDir : String)
  | terraformCreate (dir : String)
  | terraformDestroy (dir : String)
  | createNamespace (ns : String)
  | helmUpgrade (ns release dir : String)
  | podReadyPoll (ns selector : String)
  | deleteTfstateSecret (serviceId : String)
  | statelessCleanup (release : String)
deriving DecidableEq

/-- Outcomes of the external collaborators invoked by the MySQL paths.
`render from to` is the result of `generate_and_copy_all_files_into_dir`. -/
structure ExternalWorld where
  kubernetes_config_path : Except SimpleError String
  render : String → String → Except SimpleError Unit
  terraform_apply : Except SimpleError Unit
  terraform_destroy : Except SimpleError Unit
  create_namespace : Except SimpleError Unit
  helm_upgrade_history : Except SimpleError (Option HelmHistoryRow)
  pod_ready : Except SimpleError (Option Bool)
  stateless_cleanup : Except SimpleError Unit

/-- Model of `MySQL::on_create` (src/cloud_provider/aws/databases/mysql.rs:295):
the managed path renders common, engine and external-name template sets then
runs terraform init-validate-plan-apply; the self-hosted path fetches the kube
config, renders the default chart then the chart-values overlay, ensures the
namespace, runs helm upgrade-with-history, requires a successful history entry,
and finally polls pod readiness. -/
def MySQL.on_create (s : MySQL) (target : DeploymentTarget) (w : ExternalWorld) :
    List DbStep × Except EngineError Unit :=
  match target with
  | .managedServices _ _ =>
    let ws := s.workspace_dir
    let common_dir := s.lib_root_dir ++ "/aws/services/common"
    let t1 := [DbStep.render common_dir ws]
    match cast_simple_error_to_engine_error s.engine_error_scope s.execution_id
        (w.render common_dir ws) with
    | .error e => (t1, .error e)
    | .ok _ =>
      let mysql_dir := s.lib_root_dir ++ "/aws/services/mysql"
      let t2 := t1 ++ [DbStep.render mysql_dir ws]
      match cast_simple_error_to_engine_error s.engine_error_scope s.execution_id
          (w.render mysql_dir ws) with
      | .error e => (t2, .error e)
      | .ok _ =>
        let ext_dir := s.lib_root_dir ++ "/aws/charts/external-name-svc"
        let ext_dest := ws ++ "/" ++ "external-name-svc"
        let t3 := t2 ++ [DbStep.render ext_dir ext_dest]
        match cast_simple_error_to_engine_error s.engine_error_scope s.execution_id
            (w.render ext_dir ext_dest) with
        | .error e => (t3, .error e)
        | .ok _ =>
          let t4 := t3 ++ [DbStep.terraformCreate ws]
          match cast_simple_error_to_engine_error s.engine_error_scope s.execution_id
              w.terraform_apply with
          | .error e => (t4, .error e)
          | .ok _ => (t4, .ok ())
  | .selfHosted _ environment =>
    let ws := s.workspace_dir
    match cast_simple_error_to_engine_error s.engine_error_scope s.execution_id
        w.kubernetes_config_path with
    | .error e => ([], .error e)
    | .ok _ =>
      let chart_dir := s.lib_root_dir ++ "/common/services/mysql"
      let t1 := [DbStep.render chart_dir ws]
      match cast_simple_error_to_engine_error s.engine_error_scope s.execution_id
          (w.render chart_dir ws) with
      | .error e => (t1, .error e)
      | .ok _ =>
        let values_dir := s.lib_root_dir ++ "/common/chart_values/mysql"
        let t2 := t1 ++ [DbStep.render values_dir ws]
        match cast_simple_error_to_engine_error s.engine_error_scope s.execution_id
            (w.render values_dir ws) with
        | .error e => (t2, .error e)
        | .ok _ =>
          let t3 := t2 ++ [DbStep.createNamespace environment.env_namespace]
          match cast_simple_error_to_engine_error s.engine_error_scope s.execution_id
              w.create_namespace with
          | .error e => (t3, .error e)
          | .ok _ =>
            let t4 := t3 ++
              [DbStep.helmUpgrade environment.env_namespace (helm_release_name s) ws]
            match cast_simple_error_to_engine_error s.engine_error_scope s.execution_id
                w.helm_upgrade_history with
            | .error e => (t4, .error e)
            | .ok helm_history_row =>
              let deployment_failed : Bool :=
                match helm_history_row with
                | none => true
                | some row => !row.is_successfully_deployed
              if deployment_failed then
                (t4, .error (s.engine_error .internal
                  "MySQL database fails to be deployed (before start)"))
              else
                let selector := "app=" ++ s.name
                let t5 := t4 ++ [DbStep.podReadyPoll environment.env_namespace selector]
                match w.pod_ready with
                | .ok (some true) => (t5, .ok ())
                | _ =>
                  (t5, .error (s.engine_error .internal
                    ("MySQL database " ++ s.name ++ " with id " ++ s.id ++
                      " failed to start after several retries")))

/-- Model of `MySQL::delete` (src/cloud_provider/aws/databases/mysql.rs:144):
the managed path renders common, engine, external-name into its sub-directory
and external-name again into the working directory, runs terraform
init-plan-apply-destroy, and on success deletes the tfstate secret (whose name
is a deterministic function of the service id — the trace records the id); the
self-hosted path runs the stateless-service cleanup for the release. -/
def MySQL.delete (s : MySQL) (target : DeploymentTarget) (w : ExternalWorld) :
    List DbStep × Except EngineError Unit :=
  match target with
  | .managedServices _ _ =>
    let ws := s.workspace_dir
    let common_dir := s.lib_root_dir ++ "/aws/services/common"
    let t1 := [DbStep.render common_dir ws]
    match cast_simple_error_to_engine_error s.engine_error_scope s.execution_id
        (w.render common_dir ws) with
    | .error e => (t1, .error e)
    | .ok _ =>
      let mysql_dir := s.lib_root_dir ++ "/aws/services/mysql"
      let t2 := t1 ++ [DbStep.render mysql_dir ws]
      match cast_simple_error_to_engine_error s.engine_error_scope s.execution_id
          (w.render mysql_dir ws) with
      | .error e => (t2, .error e)
      | .ok _ =>
        let ext_dir := s.lib_root_dir ++ "/aws/charts/external-name-svc"
        let ext_dest := ws ++ "/" ++ "external-name-svc"
        let t3 := t2 ++ [DbStep.render ext_dir ext_dest]
        match cast_simple_error_to_engine_error s.engine_error_scope s.execution_id
            (w.render ext_dir ext_dest) with
        | .error e => (t3, .error e)
        | .ok _ =>
          let t4 := t3 ++ [DbStep.render ext_dir ws]
          match cast_simple_error_to_engine_error s.engine_error_scope s.execution_id
              (w.render ext_dir ws) with
          | .error e => (t4, .error e)
          | .ok _ =>
            let t5 := t4 ++ [DbStep.terraformDestroy ws]
            match w.terraform_destroy with
            | .ok _ => (t5 ++ [DbStep.deleteTfstateSecret s.id], .ok ())
            | .error e =>
              (t5, .error (s.engine_error .internal
                ("Error while destroying infrastructure " ++ e.message.getD "")))
  | .selfHosted _ _ =>
    let t1 := [DbStep.statelessCleanup (helm_release_name s)]
    match cast_simple_error_to_engine_error s.engine_error_scope s.execution_id
        w.stateless_cleanup with
    | .error e => (t1, .error e)
    | .ok _ => (t1, .ok ())

/-- Rust `MySQL::on_delete` forwards to `MySQL::delete`. -/
def MySQL.on_delete (s : MySQL) (target : DeploymentTarget) (w : ExternalWorld) :
    List DbStep × Except EngineError Unit :=
  s.delete target w

/-! ## Claim theorems: version catalog -/

/-- C1: `get_supported_version_to_use` resolves strictly at the granularity of
the request — it consults the catalog at exactly the key of the requested
granularity (the patch key when a patch is present, else the minor key when a
minor is present, else the bare major), a miss at that key yields the
unsupported-version error, and the result never depends on any coarser or
finer key of the mapping. -/
theorem C1_resolution_granularity (database_name : String) (m : VersionMap) (v : String) :
    (get_supported_version_to_use database_name m v =
      match m (chosen_lookup_key v) with
      | some r => .ok r
      | none => .error (unsupportedMsg database_name v)) ∧
    (∀ m2 : VersionMap, m2 (chosen_lookup_key v) = m (chosen_lookup_key v) →
      get_supported_version_to_use database_name m2 v =
        get_supported_version_to_use database_name m v) := by
  refine ⟨resolve_eq_lookup database_name m v, ?_⟩
  intro m2 h
  rw [resolve_eq_lookup database_name m2 v, resolve_eq_lookup database_name m v, h]

/-- Witness for C1 at a concrete catalog: `"8"` resolves through the major key
and adding an unrelated minor key does not change the outcome. -/
theorem C1_resolution_granularity_witness :
    get_supported_version_to_use "MySQL" (insertKV emptyMap "8" "8.0.21") "8" = .ok "8.0.21" ∧
    get_supported_version_to_use "MySQL"
        (insertKV (insertKV emptyMap "8" "8.0.21") "8.0" "x") "8" =
      get_supported_version_to_use "MySQL" (insertKV emptyMap "8" "8.0.21") "8" := by
  constructor
  · rw [(C1_resolution_granularity "MySQL" (insertKV emptyMap "8" "8.0.21") "8").1]
    rfl
  · exact (C1_resolution_granularity "MySQL" (insertKV emptyMap "8" "8.0.21") "8").2
      (insertKV (insertKV emptyMap "8" "8.0.21") "8.0" "x") rfl

/-- C5 counterexample: at display name `"MySQL"` and missed request `"1.0"`
the message is `"MySQL 1.0 version is not supported"`, which is neither the
`"this ..."` form nor the `"the ..."` form the claim prescribes. -/
theorem C5_article_counterexample :
    get_supported_version_to_use "MySQL" emptyMap "1.0" =
      .error "MySQL 1.0 version is not supported" ∧
    "MySQL 1.0 version is not supported" ≠ "this MySQL 1.0 version is not supported" ∧
    "MySQL 1.0 version is not supported" ≠ "the MySQL 1.0 version is not supported" :=
  ⟨rfl, by decide, by decide⟩

/-- C5 (amended): for every engine display name and every requested string that
misses the catalog at its chosen granularity, the error message is exactly
`"<Display Name> <requested> version is not supported"` — no leading article —
with the requested string reproduced verbatim. -/
theorem C5_unsupported_message (database_name : String) (m : VersionMap) (v : String)
    (h : m (chosen_lookup_key v) = none) :
    get_supported_version_to_use database_name m v =
      .error (database_name ++ " " ++ v ++ " version is not supported") := by
  rw [resolve_eq_lookup database_name m v, h]
  rfl

/-- Witness for C5 on the empty catalog with the managed display name. -/
theorem C5_unsupported_message_witness :
    get_supported_version_to_use "RDS MySQL" emptyMap "8.0.18" =
      .error ("RDS MySQL" ++ " " ++ "8.0.18" ++ " version is not supported") :=
  C5_unsupported_message "RDS MySQL" emptyMap "8.0.18" rfl

/-- C3: generating the 5.6.34–5.6.49 range and then removing `"5.6.47"`, the
exact request `"5.6.47"` fails with the unsupported-version error while the
coarser requests `"5.6"` and `"5"` both still resolve to `"5.6.49"`. -/
theorem C3_denylist_after_generation :
    ((generate_supported_version 5 6 6 (some 34) (some 49) none).map
      (fun f => get_supported_version_to_use "MySQL" (removeKey f "5.6.47") "5.6.47") =
        some (.error "MySQL 5.6.47 version is not supported")) ∧
    ((generate_supported_version 5 6 6 (some 34) (some 49) none).map
      (fun f => get_supported_version_to_use "MySQL" (removeKey f "5.6.47") "5.6") =
        some (.ok "5.6.49")) ∧
    ((generate_supported_version 5 6 6 (some 34) (some 49) none).map
      (fun f => get_supported_version_to_use "MySQL" (removeKey f "5.6.47") "5") =
        some (.ok "5.6.49")) :=
  ⟨rfl, rfl, rfl⟩

/-- C4 counterexample: the self-hosted resolver's message for `"1.0"` carries
no `"this "` article, unlike the message the claim prescribes. -/
theorem C4_selfhosted_message_counterexample :
    get_self_hosted_mysql_version "1.0" =
      some (.error "MySQL 1.0 version is not supported") ∧
    "MySQL 1.0 version is not supported" ≠ "this MySQL 1.0 version is not supported" :=
  ⟨rfl, by decide⟩

/-- C4 (amended): the self-hosted MySQL resolver (5.7 and 8.0 ranges merged,
last write winning) resolves `"5"` to `"5.7.31"` and fails on `"1.0"` with the
message `"MySQL 1.0 version is not supported"` (no `"this "` article). -/
theorem C4_selfhosted_resolution :
    get_self_hosted_mysql_version "5" = some (.ok "5.7.31") ∧
    get_self_hosted_mysql_version "1.0" =
      some (.error "MySQL 1.0 version is not supported") :=
  ⟨rfl, rfl⟩

/-- C10: the generator returns a catalog whenever the update bounds are both
present or both absent (and also when only the maximum is present), but
`update_min = Some` with `update_max = None` reaches `update_max.unwrap()` and
panics — witnessed at `generate_supported_version(8, 0, 1, Some(0), None, None)`. -/
theorem C10_generator_panic :
    (∀ (major mMin mMax umin umax : Int) (sufOpt : Option String),
      (generate_supported_version major mMin mMax none none sufOpt).isSome ∧
      (generate_supported_version major mMin mMax none (some umax) sufOpt).isSome ∧
      (generate_supported_version major mMin mMax (some umin) (some umax) sufOpt).isSome) ∧
    generate_supported_version 8 0 1 (some 0) none none = none := by
  refine ⟨fun major mMin mMax umin umax sufOpt => ⟨rfl, rfl, rfl⟩, rfl⟩

/-- C2 counterexample: with suffix `"-s"` and more than one minor in range, the
minor convenience key `"1.0"` maps to `"1.0.0"` — the generator does not append
the suffix there, contrary to the claimed `"1.0.0-s"`. -/
theorem C2_suffix_counterexample :
    (generate_supported_version 1 0 1 (some 0) (some 0) (some "-s")).map
        (fun f => f "1.0") = some (some "1.0.0") ∧
    some (some "1.0.0") ≠ some (some ("1.0.0" ++ "-s")) :=
  ⟨rfl, by decide⟩

/-- C2 (amended): with an update range given, the generated catalog maps every
`"major.minor.update"` key in range to itself with the suffix appended; maps
the minor convenience key `"major.minor"` to the latest update of that minor,
with the suffix appended when `minor_min = minor_max` and without it
otherwise; and maps the bare `"major"` key to `"major.minor_max.update_max"`
with the suffix appended. -/
theorem C2_generated_catalog (major mMin mMax umin umax : Int) (sufOpt : Option String) :
    ∃ f, generate_supported_version major mMin mMax (some umin) (some umax) sufOpt = some f ∧
      (∀ mi u, mMin ≤ mi → mi ≤ mMax → umin ≤ u → u ≤ umax →
        f (ver3 major mi u) = some (ver3 major mi u ++ suffix_or_empty sufOpt)) ∧
      (∀ mi, mMin ≤ mi → mi ≤ mMax →
        f (ver2 major mi) =
          some (if mMin = mMax then ver3 major mMax umax ++ suffix_or_empty sufOpt
                else ver3 major mi umax)) ∧
      f (intRepr major) = some (ver3 major mMax umax ++ suffix_or_empty sufOpt) := by
  have hsome : (generate_supported_version major mMin mMax
      (some umin) (some umax) sufOpt).isSome := rfl
  obtain ⟨f, hf⟩ := Option.isSome_iff_exists.mp hsome
  exact ⟨f, hf,
    fun mi u a b c d => gen_lookup_ver3 sufOpt a b c d hf,
    fun mi a b => gen_lookup_ver2 sufOpt a b hf,
    gen_lookup_major sufOpt hf⟩

/-- Witness for C2 on the range 5.6–5.7 with updates 0–1 and suffix `"-s"`. -/
theorem C2_generated_catalog_witness :
    ∃ f, generate_supported_version 5 6 7 (some 0) (some 1) (some "-s") = some f ∧
      f "5.6.1" = some "5.6.1-s" ∧ f "5.6" = some "5.6.1" ∧ f "5" = some "5.7.1-s" := by
  obtain ⟨f, hf, h3, h2, hM⟩ := C2_generated_catalog 5 6 7 0 1 (some "-s")
  refine ⟨f, hf, ?_, ?_, ?_⟩
  · exact h3 6 1 (by decide) (by decide) (by decide) (by decide)
  · have h := h2 6 (by decide) (by decide)
    rw [if_neg (by decide)] at h
    exact h
  · exact hM

/-! ## Retry-loop lemmas and DNS claim theorems -/

theorem retryRun_tries_ge (op : Nat → Bool) :
    ∀ (delays : List Nat) (tryIdx : Nat), tryIdx ≤ (retryRun op tryIdx delays).1 := by
  intro delays
  induction delays with
  | nil => intro tryIdx; simp [retryRun]
  | cons d rest ih =>
    intro tryIdx
    by_cases hop : op tryIdx = true
    · simp [retryRun, hop]
    · simp [retryRun, hop]
      have := ih (tryIdx + 1)
      omega

theorem retryRun_tries_le (op : Nat → Bool) :
    ∀ (delays : List Nat) (tryIdx : Nat),
      (retryRun op tryIdx delays).1 ≤ tryIdx + delays.length := by
  intro delays
  induction delays with
  | nil => intro tryIdx; simp [retryRun]
  | cons d rest ih =>
    intro tryIdx
    by_cases hop : op tryIdx = true
    · simp [retryRun, hop]
    · simp [retryRun, hop]
      have := ih (tryIdx + 1)
      omega

theorem retryRun_slept_length (op : Nat → Bool) :
    ∀ (delays : List Nat) (tryIdx : Nat),
      (retryRun op tryIdx delays).2.1.length = (retryRun op tryIdx delays).1 - tryIdx := by
  intro delays
  induction delays with
  | nil => intro tryIdx; simp [retryRun]
  | cons d rest ih =>
    intro tryIdx
    by_cases hop : op tryIdx = true
    · simp [retryRun, hop]
    · simp [retryRun, hop]
      have h1 := ih (tryIdx + 1)
      have h2 := retryRun_tries_ge op rest (tryIdx + 1)
      omega

theorem retryRun_slept_mem (op : Nat → Bool) :
    ∀ (delays : List Nat) (tryIdx : Nat) (x : Nat),
      x ∈ (retryRun op tryIdx delays).2.1 → x ∈ delays := by
  intro delays
  induction delays with
  | nil => intro tryIdx x hx; simp [retryRun] at hx
  | cons d rest ih =>
    intro tryIdx x hx
    by_cases hop : op tryIdx = true
    · simp [retryRun, hop] at hx
    · simp [retryRun, hop] at hx
      rcases hx with rfl | hx
      · simp
      · exact List.mem_cons_of_mem d (ih (tryIdx + 1) x hx)

theorem dns_check_msg_ne_progress (d : String) : dns_check_msg d ≠ dns_progress_msg d := by
  intro h
  have h2 : (dns_check_msg d).data.head? = (dns_progress_msg d).data.head? := by rw [h]
  cases d with
  | mk l =>
    have hL : (dns_check_msg ⟨l⟩).data.head? = some 'L' := rfl
    have hD : (dns_progress_msg ⟨l⟩).data.head? = some 'D' := rfl
    rw [hL, hD] at h2
    exact absurd h2 (by decide)

theorem checkOneDomain_retry_count (w : DnsWorld) (d execution_id context_id : String) :
    (checkOneDomain w d execution_id context_id).1.count
        (ListenerCall.start_in_progress
          ⟨.environment execution_id, .info, some (dns_progress_msg d), execution_id⟩) =
      (if (retryRun (w.lookup d) 1 dns_fixed_delays).2.2 = true then
        (retryRun (w.lookup d) 1 dns_fixed_delays).1 - 1
       else (retryRun (w.lookup d) 1 dns_fixed_delays).1) := by
  have hne := dns_check_msg_ne_progress d
  have hne2 : dns_progress_msg d ≠ dns_check_msg d := fun h => hne h.symm
  by_cases hs : (retryRun (w.lookup d) 1 dns_fixed_delays).2.2 = true
  · simp [checkOneDomain, hs, List.count_cons, List.count_append, hne, hne2]
  · simp [checkOneDomain, hs, List.count_cons, List.count_append, hne, hne2]

/-- C7: DNS checking never fails because a domain exhausted its retries — with
a constructed resolver every domain is processed (its kick-off event is in the
trace), an exhausted domain contributes a `Warn`-level error event and the
check continues to the remaining domains, and the overall result is `Ok`; the
only error the function can return is the `Internal` one produced when the
resolver itself cannot be built, in which case the whole check short-circuits
with no domain polled (no event at all is emitted). -/
theorem C7_dns_never_fatal (w : DnsWorld) (nid : String) (domains : List String)
    (execution_id context_id : String) :
    (w.resolver_ok = true →
      (check_domain_for w nid domains execution_id context_id).2.2 = .ok () ∧
      ∀ d ∈ domains,
        (ListenerCall.start_in_progress
            ⟨.environment execution_id, .info, some (dns_check_msg d), execution_id⟩ ∈
          (check_domain_for w nid domains execution_id context_id).1) ∧
        ((retryRun (w.lookup d) 1 dns_fixed_delays).2.2 = false →
          ListenerCall.error
              ⟨.environment execution_id, .warn, some (dns_timeout_msg d), context_id⟩ ∈
            (check_domain_for w nid domains execution_id context_id).1)) ∧
    (w.resolver_ok = false →
      ∃ e, check_domain_for w nid domains execution_id context_id = ([], [], .error e) ∧
        e.cause = .internal) := by
  constructor
  · intro hok
    unfold check_domain_for
    rw [if_pos hok]
    refine ⟨rfl, ?_⟩
    intro d hd
    constructor
    · apply List.mem_flatten.mpr
      refine ⟨(checkOneDomain w d execution_id context_id).1,
        List.mem_map_of_mem _ (List.mem_map_of_mem _ hd), ?_⟩
      exact List.mem_cons_self _ _
    · intro hfail
      apply List.mem_flatten.mpr
      refine ⟨(checkOneDomain w d execution_id context_id).1,
        List.mem_map_of_mem _ (List.mem_map_of_mem _ hd), ?_⟩
      simp [checkOneDomain, hfail]
  · intro hko
    unfold check_domain_for
    rw [if_neg (by simp [hko])]
    exact ⟨_, rfl, rfl⟩

/-- Witness for C7: a never-resolving lookup still yields `Ok` with the Warn
event emitted, and a failed resolver construction yields the Internal error. -/
theorem C7_dns_never_fatal_witness :
    ((check_domain_for ⟨true, fun _ _ => false⟩ "db" ["example.com"] "e" "c").2.2 =
      .ok ()) ∧
    (∃ e, check_domain_for ⟨false, fun _ _ => false⟩ "db" ["example.com"] "e" "c" =
      ([], [], .error e) ∧ e.cause = .internal) :=
  ⟨((C7_dns_never_fatal ⟨true, fun _ _ => false⟩ "db" ["example.com"] "e" "c").1 rfl).1,
   (C7_dns_never_fatal ⟨false, fun _ _ => false⟩ "db" ["example.com"] "e" "c").2 rfl⟩

/-- C8 counterexample: with a lookup that never resolves, the retry loop for
one hostname performs 101 attempts — one initial attempt plus the 100 retries
granted by the delay iterator — exceeding the claimed total of 100. -/
theorem C8_attempts_counterexample :
    ((check_domain_for ⟨true, fun _ _ => false⟩ "db" ["example.com"] "e" "c").2.1.map
      (fun r => r.1)) = [101] ∧ ¬ ((101 : Nat) ≤ 100) :=
  ⟨rfl, by decide⟩

/-- C8 (amended): for every hostname checked, the retry loop performs at most
101 resolution attempts in total (one initial attempt plus at most the 100
retries the delay iterator grants), sleeps exactly one fixed 3000 ms delay
between consecutive attempts (`tries - 1` delays in total, so the loop always
terminates within the bound), and emits one `Info`-level progress event per
failed attempt. -/
theorem C8_retry_budget (w : DnsWorld) (nid : String) (domains : List String)
    (execution_id context_id : String) (hok : w.resolver_ok = true) :
    (check_domain_for w nid domains execution_id context_id).2.1 =
      domains.map (fun d => retryRun (w.lookup d) 1 dns_fixed_delays) ∧
    ∀ d ∈ domains,
      (retryRun (w.lookup d) 1 dns_fixed_delays).1 ≤ 101 ∧
      (retryRun (w.lookup d) 1 dns_fixed_delays).2.1 =
        List.replicate ((retryRun (w.lookup d) 1 dns_fixed_delays).1 - 1) 3000 ∧
      (checkOneDomain w d execution_id context_id).1.count
          (ListenerCall.start_in_progress
            ⟨.environment execution_id, .info, some (dns_progress_msg d), execution_id⟩) =
        (if (retryRun (w.lookup d) 1 dns_fixed_delays).2.2 = true then
          (retryRun (w.lookup d) 1 dns_fixed_delays).1 - 1
        else (retryRun (w.lookup d) 1 dns_fixed_delays).1) := by
  constructor
  · unfold check_domain_for
    rw [if_pos hok]
    show ((domains.map _).map Prod.snd) = _
    rw [List.map_map]
    rfl
  · intro d hd
    refine ⟨?_, ?_, checkOneDomain_retry_count w d execution_id context_id⟩
    · have h := retryRun_tries_le (w.lookup d) dns_fixed_delays 1
      simpa [dns_fixed_delays] using h
    · refine (List.eq_replicate_iff).mpr ⟨?_, ?_⟩
      · exact retryRun_slept_length (w.lookup d) dns_fixed_delays 1
      · intro b hb
        have := retryRun_slept_mem (w.lookup d) dns_fixed_delays 1 b hb
        exact List.eq_of_mem_replicate this

/-- Witness for C8 at a never-resolving world with one domain. -/
theorem C8_retry_budget_witness :
    ((check_domain_for ⟨true, fun _ _ => false⟩ "db" ["example.com"] "e" "c").2.1 =
      ["example.com"].map
        (fun d => retryRun ((DnsWorld.mk true (fun _ _ => false)).lookup d) 1
          dns_fixed_delays)) ∧
    ∀ d ∈ ["example.com"],
      (retryRun ((DnsWorld.mk true (fun _ _ => false)).lookup d) 1 dns_fixed_delays).1 ≤ 101 ∧
      (retryRun ((DnsWorld.mk true (fun _ _ => false)).lookup d) 1 dns_fixed_delays).2.1 =
        List.replicate
          ((retryRun ((DnsWorld.mk true (fun _ _ => false)).lookup d) 1
            dns_fixed_delays).1 - 1) 3000 ∧
      (checkOneDomain ⟨true, fun _ _ => false⟩ d "e" "c").1.count
          (ListenerCall.start_in_progress
            ⟨.environment "e", .info, some (dns_progress_msg d), "e"⟩) =
        (if (retryRun ((DnsWorld.mk true (fun _ _ => false)).lookup d) 1
            dns_fixed_delays).2.2 = true then
          (retryRun ((DnsWorld.mk true (fun _ _ => false)).lookup d) 1 dns_fixed_delays).1 - 1
        else (retryRun ((DnsWorld.mk true (fun _ _ => false)).lookup d) 1
          dns_fixed_delays).1) :=
  C8_retry_budget ⟨true, fun _ _ => false⟩ "db" ["example.com"] "e" "c" rfl

/-! ## MySQL lifecycle claim theorems -/

/-- C6: on a self-hosted create, when every step up to the helm upgrade
succeeds and the upgrade-with-history call reports no history entry or an
entry that is not successfully deployed, `on_create` fails with an `Internal`
engine error whose message contains "fails to be deployed (before start)",
and the pod-readiness poll never appears in the step trace. -/
theorem C6_helm_history_gate (s : MySQL) (k : KubernetesCluster) (e : Environment)
    (w : ExternalWorld) (cfg : String)
    (hcfg : w.kubernetes_config_path = .ok cfg)
    (hr1 : w.render (s.lib_root_dir ++ "/common/services/mysql") s.workspace_dir = .ok ())
    (hr2 : w.render (s.lib_root_dir ++ "/common/chart_values/mysql") s.workspace_dir = .ok ())
    (hns : w.create_namespace = .ok ())
    (hh : w.helm_upgrade_history = .ok none ∨
      ∃ row, w.helm_upgrade_history = .ok (some row) ∧
        row.is_successfully_deployed = false) :
    ∃ err, (s.on_create (.selfHosted k e) w).2 = .error err ∧
      err.cause = .internal ∧
      (∃ pre post, err.message = some (pre ++ "fails to be deployed (before start)" ++ post)) ∧
      ∀ ns sel, DbStep.podReadyPoll ns sel ∉ (s.on_create (.selfHosted k e) w).1 := by
  have htrace : s.on_create (.selfHosted k e) w =
      ([DbStep.render (s.lib_root_dir ++ "/common/services/mysql") s.workspace_dir,
        DbStep.render (s.lib_root_dir ++ "/common/chart_values/mysql") s.workspace_dir,
        DbStep.createNamespace e.env_namespace,
        DbStep.helmUpgrade e.env_namespace (helm_release_name s) s.workspace_dir],
       .error (s.engine_error .internal
         "MySQL database fails to be deployed (before start)")) := by
    rcases hh with hh | ⟨row, hh, hrow⟩
    · simp [MySQL.on_create, hcfg, hr1, hr2, hns, hh, cast_simple_error_to_engine_error]
    · simp [MySQL.on_create, hcfg, hr1, hr2, hns, hh, hrow,
        cast_simple_error_to_engine_error]
  refine ⟨s.engine_error .internal "MySQL database fails to be deployed (before start)",
    by rw [htrace], rfl, ⟨"MySQL database ", "", ?_⟩, ?_⟩
  · show some "MySQL database fails to be deployed (before start)" =
      some ("MySQL database " ++ "fails to be deployed (before start)" ++ "")
    decide
  intro ns sel
  rw [htrace]
  simp

/-- Witness for C6: a concrete world whose helm history is `Ok(None)`. -/
theorem C6_helm_history_gate_witness :
    ∃ err, ((MySQL.mk "id1" "db" "/lib" "/ws" "exec" false none).on_create
        (.selfHosted ⟨"k", "kname", "eu-west-3"⟩ ⟨"ns", "org"⟩)
        ⟨.ok "cfg", fun _ _ => .ok (), .ok (), .ok (), .ok (), .ok none,
          .ok (some true), .ok ()⟩).2 = .error err ∧
      err.cause = .internal ∧
      (∃ pre post, err.message = some (pre ++ "fails to be deployed (before start)" ++ post)) ∧
      ∀ ns sel, DbStep.podReadyPoll ns sel ∉
        ((MySQL.mk "id1" "db" "/lib" "/ws" "exec" false none).on_create
          (.selfHosted ⟨"k", "kname", "eu-west-3"⟩ ⟨"ns", "org"⟩)
          ⟨.ok "cfg", fun _ _ => .ok (), .ok (), .ok (), .ok (), .ok none,
            .ok (some true), .ok ()⟩).1 :=
  C6_helm_history_gate (MySQL.mk "id1" "db" "/lib" "/ws" "exec" false none)
    ⟨"k", "kname", "eu-west-3"⟩ ⟨"ns", "org"⟩
    ⟨.ok "cfg", fun _ _ => .ok (), .ok (), .ok (), .ok (), .ok none,
      .ok (some true), .ok ()⟩ "cfg" rfl rfl rfl rfl (Or.inl rfl)

/-- C9 counterexample: on a managed create with every render succeeding, the
external-name chart set is rendered exactly once — not twice as claimed. -/
theorem C9_create_single_render_counterexample :
    ((MySQL.mk "id1" "db" "/lib" "/ws" "exec" false none).on_create
        (.managedServices ⟨"k", "kname", "eu-west-3"⟩ ⟨"ns", "org"⟩)
        ⟨.ok "cfg", fun _ _ => .ok (), .ok (), .ok (), .ok (), .ok (some ⟨true⟩),
          .ok (some true), .ok ()⟩).1.countP
      (fun st => match st with
        | DbStep.render fromDir _ => fromDir == "/lib" ++ "/aws/charts/external-name-svc"
        | _ => false) = 1 ∧ (1 : Nat) ≠ 2 :=
  ⟨rfl, by decide⟩

/-- C9 (amended): on a managed target the external-name shim chart set is
rendered twice in `MySQL::delete` — once into the dedicated sub-directory and
once directly into the working directory — before the terraform destroy
sequence, while `MySQL::on_create` renders it only once, into the dedicated
sub-directory, before the terraform apply sequence. -/
theorem C9_external_name_renders (s : MySQL) (k : KubernetesCluster) (e : Environment)
    (w : ExternalWorld)
    (hc : w.render (s.lib_root_dir ++ "/aws/services/common") s.workspace_dir = .ok ())
    (hm : w.render (s.lib_root_dir ++ "/aws/services/mysql") s.workspace_dir = .ok ())
    (he1 : w.render (s.lib_root_dir ++ "/aws/charts/external-name-svc")
      (s.workspace_dir ++ "/" ++ "external-name-svc") = .ok ())
    (he2 : w.render (s.lib_root_dir ++ "/aws/charts/external-name-svc")
      s.workspace_dir = .ok ()) :
    (∃ rest, (s.delete (.managedServices k e) w).1 =
      [DbStep.render (s.lib_root_dir ++ "/aws/services/common") s.workspace_dir,
       DbStep.render (s.lib_root_dir ++ "/aws/services/mysql") s.workspace_dir,
       DbStep.render (s.lib_root_dir ++ "/aws/charts/external-name-svc")
         (s.workspace_dir ++ "/" ++ "external-name-svc"),
       DbStep.render (s.lib_root_dir ++ "/aws/charts/external-name-svc") s.workspace_dir,
       DbStep.terraformDestroy s.workspace_dir] ++ rest) ∧
    (s.on_create (.managedServices k e) w).1 =
      [DbStep.render (s.lib_root_dir ++ "/aws/services/common") s.workspace_dir,
       DbStep.render (s.lib_root_dir ++ "/aws/services/mysql") s.workspace_dir,
       DbStep.render (s.lib_root_dir ++ "/aws/charts/external-name-svc")
         (s.workspace_dir ++ "/" ++ "external-name-svc"),
       DbStep.terraformCreate s.workspace_dir] := by
  constructor
  · cases hd : w.terraform_destroy with
    | error e0 =>
      refine ⟨[], ?_⟩
      simp [MySQL.delete, hc, hm, he1, he2, hd, cast_simple_error_to_engine_error]
    | ok u =>
      refine ⟨[DbStep.deleteTfstateSecret s.id], ?_⟩
      simp [MySQL.delete, hc, hm, he1, he2, hd, cast_simple_error_to_engine_error]
  · cases ha : w.terraform_apply with
    | error e0 =>
      simp [MySQL.on_create, hc, hm, he1, ha, cast_simple_error_to_engine_error]
    | ok u =>
      simp [MySQL.on_create, hc, hm, he1, ha, cast_simple_error_to_engine_error]

/-- Witness for C9 at a concrete all-succeeding world. -/
theorem C9_external_name_renders_witness :
    (∃ rest, ((MySQL.mk "id1" "db" "/lib" "/ws" "exec" false none).delete
        (.managedServices ⟨"k", "kname", "eu-west-3"⟩ ⟨"ns", "org"⟩)
        ⟨.ok "cfg", fun _ _ => .ok (), .ok (), .ok (), .ok (), .ok (some ⟨true⟩),
          .ok (some true), .ok ()⟩).1 =
      [DbStep.render ("/lib" ++ "/aws/services/common") "/ws",
       DbStep.render ("/lib" ++ "/aws/services/mysql") "/ws",
       DbStep.render ("/lib" ++ "/aws/charts/external-name-svc")
         ("/ws" ++ "/" ++ "external-name-svc"),
       DbStep.render ("/lib" ++ "/aws/charts/external-name-svc") "/ws",
       DbStep.terraformDestroy "/ws"] ++ rest) ∧
    ((MySQL.mk "id1" "db" "/lib" "/ws" "exec" false none).on_create
        (.managedServices ⟨"k", "kname", "eu-west-3"⟩ ⟨"ns", "org"⟩)
        ⟨.ok "cfg", fun _ _ => .ok (), .ok (), .ok (), .ok (), .ok (some ⟨true⟩),
          .ok (some true), .ok ()⟩).1 =
      [DbStep.render ("/lib" ++ "/aws/services/common") "/ws",
       DbStep.render ("/lib" ++ "/aws/services/mysql") "/ws",
       DbStep.render ("/lib" ++ "/aws/charts/external-name-svc")
         ("/ws" ++ "/" ++ "external-name-svc"),
       DbStep.terraformCreate "/ws"] :=
  C9_external_name_renders (MySQL.mk "id1" "db" "/lib" "/ws" "exec" false none)
    ⟨"k", "kname", "eu-west-3"⟩ ⟨"ns", "org"⟩
    ⟨.ok "cfg", fun _ _ => .ok (), .ok (), .ok (), .ok (), .ok (some ⟨true⟩),
      .ok (some true), .ok ()⟩ rfl rfl rfl rfl
